import Mathlib

/-!
# Verification of the efesto SQL front end

A shallow embedding of the AST module (`src/ast.rs`) of the efesto SQL
parser, together with a model of the parser itself (which lives outside
the published sources and is therefore reconstructed from the
specification), and proofs of the specified properties.

Conventions of the embedding:
* Rust `Vec<T>` becomes `List T`, `Box<T>` becomes `T`, `Option<T>`
  becomes `Option T`.
* Rust structs that participate in the recursive AST nucleus become
  single-constructor inductives inside one `mutual` block; the
  non-recursive ones become ordinary structures.
* Code that can panic is modelled with `Option`: a `none` result of the
  model marks the panic.
* Fallible parsing returns `Except String`.
-/

namespace Efesto

/-- Modelled from the spec: `symbols::Name` comes from the identifier
interning module, an external collaborator whose sources are not part of
the published tree.  Per the spec it is "a canonical `Name` value with
defined equality/hash semantics"; it is modelled as a wrapper around the
raw identifier text with structural equality. -/
structure Name where
  name : String
  deriving DecidableEq, Repr

/-- Modelled from the spec: constructor used by the test suite
(`symbols::Name::new`). -/
def Name.new (s : String) : Name := ⟨s⟩

/-- Literal values (from `src/ast.rs`, enum `Literal`). -/
inductive Literal where
  | String (s : String)
  | Numeric (s : String)
  | Null
  | CurrentTime
  | CurrentDate
  | CurrentTimestamp
  | Date (s : String)
  | Time (s : String)
  | Timestamp (s : String)
  deriving DecidableEq, Repr

/-- Select modes (from `src/ast.rs`, enum `SelectMode`). -/
inductive SelectMode where
  | All
  | Distinct
  deriving DecidableEq, Repr

/-- Possible binary operators on row sets (from `src/ast.rs`, enum
`SetOperator`). -/
inductive SetOperator where
  | Intersect
  | Except
  | Union
  | UnionAll
  deriving DecidableEq, Repr

/-- Possible unary operators for simple expressions (from `src/ast.rs`,
enum `UnaryOperator`). -/
inductive UnaryOperator where
  | Negate
  | Not
  | IsNull
  deriving DecidableEq, Repr

/-- Binary operators for simple expressions (from `src/ast.rs`, enum
`BinaryOperator`). -/
inductive BinaryOperator where
  | Multiply
  | Divide
  | Add
  | Subtract
  | Concat
  | And
  | Or
  deriving DecidableEq, Repr

/-- Comparison operators (from `src/ast.rs`, enum `ComparisonOperator`). -/
inductive ComparisonOperator where
  | Equal
  | NotEqual
  | LessThan
  | LessEqual
  | GreaterThan
  | GreaterEqual
  | Like
  deriving DecidableEq, Repr

/-- Join types (from `src/ast.rs`, enum `JoinType`). -/
inductive JoinType where
  | Inner
  | Left
  | Right
  | Full
  deriving DecidableEq, Repr

/-- Join operators (from `src/ast.rs`, enum `JoinOperator`). -/
inductive JoinOperator where
  | Join (t : JoinType)
  | Natural (t : JoinType)
  | Cross
  deriving DecidableEq, Repr

/-- Sort ordering direction (from `src/ast.rs`, enum `OrderingDirection`). -/
inductive OrderingDirection where
  | Ascending
  | Descending
  deriving DecidableEq, Repr

/-- Supported data types (from `src/ast.rs`, enum `DataType`). -/
inductive DataType where
  | Boolean
  | Char (l : Literal)
  | Date
  | Decimal (p : Literal) (s : Literal)
  | DoublePrecision
  | Timestamp
  | LocalTimestamp
  | Varchar (l : Literal)
  deriving DecidableEq, Repr

/-- From `src/ast.rs`, struct `QualifiedIdentifierExpression`. -/
structure QualifiedIdentifierExpression where
  identifiers : List Name
  deriving DecidableEq, Repr

/-- From `src/ast.rs`, struct `ColumnsJoinConstraint`. -/
structure ColumnsJoinConstraint where
  columns : List Name
  deriving DecidableEq, Repr

/-- From `src/ast.rs`, struct `NamedTableExpression`: a qualified table
name plus an optional alias. -/
structure NamedTableExpression where
  name : List Name
  «alias» : Option Name
  deriving DecidableEq, Repr

/-- From `src/ast.rs`, struct `AttachStatement`: attach an external file
as a source for query processing. -/
structure AttachStatement where
  qualified_name : List Name
  path : String
  deriving DecidableEq, Repr

/-- From `src/ast.rs`, struct `DescribeStatement`: describe a particular
schema object. -/
structure DescribeStatement where
  qualified_name : List Name
  deriving DecidableEq, Repr

/-- From `src/ast.rs`, `AttachStatement::new`: builds the qualified name
by pushing the schema (when present) and then the name. -/
def AttachStatement.new (schema : Option Name) (name : Name) (path : String) :
    AttachStatement :=
  let qualified_name : List Name :=
    match schema with
    | some s => [s]
    | none => []
  { qualified_name := qualified_name ++ [name], path := path }

/-- From `src/ast.rs`, `AttachStatement::schema_name`: matches on the
length of `qualified_name`, returning the first component at length 2,
`None` at length 1, and panicking otherwise.  The outer `Option` models
the panic (`none` = panic). -/
def AttachStatement.schema_name (self : AttachStatement) : Option (Option Name) :=
  if self.qualified_name.length = 2 then some self.qualified_name.head?
  else if self.qualified_name.length = 1 then some none
  else none

/-- From `src/ast.rs`, `AttachStatement::table_name`:
`qualified_name.last().unwrap()`; the `Option` models the `unwrap` panic
on an empty vector (`none` = panic). -/
def AttachStatement.table_name (self : AttachStatement) : Option Name :=
  self.qualified_name.getLast?

/-- From `src/ast.rs`, `DescribeStatement::new`: builds the qualified
name by pushing the schema (when present) and then the name. -/
def DescribeStatement.new (schema : Option Name) (name : Name) : DescribeStatement :=
  let qualified_name : List Name :=
    match schema with
    | some s => [s]
    | none => []
  { qualified_name := qualified_name ++ [name] }

/-- From `src/ast.rs`, `DescribeStatement::schema_name`: same shape as
`AttachStatement::schema_name` (`none` = panic). -/
def DescribeStatement.schema_name (self : DescribeStatement) : Option (Option Name) :=
  if self.qualified_name.length = 2 then some self.qualified_name.head?
  else if self.qualified_name.length = 1 then some none
  else none

/-- From `src/ast.rs`, `DescribeStatement::table_name` (`none` = panic). -/
def DescribeStatement.table_name (self : DescribeStatement) : Option Name :=
  self.qualified_name.getLast?

/-- From `src/ast.rs`, helper function `append`: push `item` at the end
of `list`. -/
def append {T : Type} (list : List T) (item : T) : List T :=
  list ++ [item]

set_option maxHeartbeats 3200000 in
mutual

/-- From `src/ast.rs`, struct `SelectStatement`. -/
inductive SelectStatement where
  | mk (common : List CommonTableExpression) (expr : SetExpression)
       (order_by : List Ordering) (limit : Option Limit) : SelectStatement

/-- From `src/ast.rs`, struct `CommonTableExpression`. -/
inductive CommonTableExpression where
  | mk (identifier : Name) (column_names : Option (List Name))
       (query : SelectStatement) : CommonTableExpression

/-- From `src/ast.rs`, enum `SetExpression`. -/
inductive SetExpression where
  | Values (v : ValuesSetExpression)
  | Query (q : QuerySetExpression)
  | Op (o : OpSetExpression)

/-- From `src/ast.rs`, struct `ValuesSetExpression`. -/
inductive ValuesSetExpression where
  | mk (values : List (List Expression)) : ValuesSetExpression

/-- From `src/ast.rs`, struct `QuerySetExpression`; the Rust field `from`
is written `from_` because `from` is a reserved word. -/
inductive QuerySetExpression where
  | mk (mode : SelectMode) (columns : ResultColumns)
       (from_ : List TableExpression) (where_expr : Option Expression)
       (group_by : Option GroupBy) : QuerySetExpression

/-- From `src/ast.rs`, struct `OpSetExpression`. -/
inductive OpSetExpression where
  | mk (op : SetOperator) (left : SetExpression) (right : SetExpression) :
       OpSetExpression

/-- From `src/ast.rs`, enum `TableExpression`. -/
inductive TableExpression where
  | Named (t : NamedTableExpression)
  | Select (t : SelectTableExpression)
  | Join (t : JoinTableExpression)

/-- From `src/ast.rs`, struct `SelectTableExpression`. -/
inductive SelectTableExpression where
  | mk (select : SelectStatement) («alias» : Option Name) : SelectTableExpression

/-- From `src/ast.rs`, struct `JoinTableExpression`. -/
inductive JoinTableExpression where
  | mk (left : TableExpression) (right : TableExpression) (op : JoinOperator)
       (constraint : JoinConstraint) : JoinTableExpression

/-- From `src/ast.rs`, enum `JoinConstraint`. -/
inductive JoinConstraint where
  | Expr (e : Expression)
  | Columns (c : ColumnsJoinConstraint)

/-- From `src/ast.rs`, enum `ResultColumns`. -/
inductive ResultColumns where
  | All
  | List (l : List ResultColumn)

/-- From `src/ast.rs`, enum `ResultColumn`. -/
inductive ResultColumn where
  | AllFrom (n : Name)
  | Expr (e : ExprResultColumn)

/-- From `src/ast.rs`, struct `ExprResultColumn`. -/
inductive ExprResultColumn where
  | mk (expr : Expression) (rename : Option Name) : ExprResultColumn

/-- From `src/ast.rs`, struct `GroupBy`. -/
inductive GroupBy where
  | mk (groupings : List Expression) (having : Option Expression) : GroupBy

/-- From `src/ast.rs`, struct `Ordering`. -/
inductive Ordering where
  | mk (expr : Expression) (collation : Option Name)
       (direction : OrderingDirection) : Ordering

/-- From `src/ast.rs`, struct `Limit`. -/
inductive Limit where
  | mk (number_rows : Expression) (offset_value : Option Expression) : Limit

/-- From `src/ast.rs`, enum `Expression` (scalar expressions). -/
inductive Expression where
  | Literal (l : Literal)
  | QualifiedIdentifier (q : QualifiedIdentifierExpression)
  | MakeTuple (t : MakeTupleExpression)
  | Select (s : SelectStatement)
  | Unary (u : UnaryExpression)
  | Binary (b : BinaryExpression)
  | Comparison (c : ComparisonExpression)
  | In (i : InExpression)
  | Between (b : BetweenExpression)
  | Case (c : CaseExpression)
  | Coalesce (c : CoalesceExpression)
  | Replace (r : ReplaceExpression)
  | Substring (s : SubstringExpression)
  | ToDate (t : ToDateExpression)
  | Power (p : PowerExpression)
  | Concat (c : ConcatExpression)
  | Sum (s : SumExpression)
  | Max (m : MaxExpression)
  | Min (m : MinExpression)
  | Cast (c : CastExpression)
  | Right (r : RightExpression)
  | Count (c : CountExpression)
  | Unknown (u : UnknownExpression)

/-- From `src/ast.rs`, struct `MakeTupleExpression`. -/
inductive MakeTupleExpression where
  | mk (exprs : List Expression) : MakeTupleExpression

/-- From `src/ast.rs`, struct `UnaryExpression`. -/
inductive UnaryExpression where
  | mk (op : UnaryOperator) (expr : Expression) : UnaryExpression

/-- From `src/ast.rs`, struct `BinaryExpression`. -/
inductive BinaryExpression where
  | mk (op : BinaryOperator) (left : Expression) (right : Expression) :
       BinaryExpression

/-- From `src/ast.rs`, struct `ComparisonExpression`. -/
inductive ComparisonExpression where
  | mk (op : ComparisonOperator) (left : Expression) (right : Expression) :
       ComparisonExpression

/-- From `src/ast.rs`, struct `InExpression`. -/
inductive InExpression where
  | mk (expr : Expression) (set : SetSpecification) : InExpression

/-- From `src/ast.rs`, struct `BetweenExpression`. -/
inductive BetweenExpression where
  | mk (expr : Expression) (lower : Expression) (upper : Expression) :
       BetweenExpression

/-- From `src/ast.rs`, struct `CaseExpression`. -/
inductive CaseExpression where
  | mk (expr : Option Expression) (when_part : List WhenClause)
       (else_part : Option Expression) : CaseExpression

/-- From `src/ast.rs`, struct `CoalesceExpression`. -/
inductive CoalesceExpression where
  | mk (exprs : List Expression) : CoalesceExpression

/-- From `src/ast.rs`, struct `ReplaceExpression`. -/
inductive ReplaceExpression where
  | mk (string : Expression) (search_string : Expression)
       (replace_string : Option Expression) : ReplaceExpression

/-- From `src/ast.rs`, struct `SubstringExpression`. -/
inductive SubstringExpression where
  | mk (string : Expression) (position : Expression)
       (length : Option Expression) : SubstringExpression

/-- From `src/ast.rs`, struct `ToDateExpression`. -/
inductive ToDateExpression where
  | mk (string : Expression) (format : Option Expression) : ToDateExpression

/-- From `src/ast.rs`, struct `PowerExpression`. -/
inductive PowerExpression where
  | mk (base : Expression) (exponent : Expression) : PowerExpression

/-- From `src/ast.rs`, struct `ConcatExpression`. -/
inductive ConcatExpression where
  | mk (exprs : List Expression) : ConcatExpression

/-- From `src/ast.rs`, struct `SumExpression`. -/
inductive SumExpression where
  | mk (mode : SelectMode) (expr : Expression) : SumExpression

/-- From `src/ast.rs`, struct `MaxExpression`. -/
inductive MaxExpression where
  | mk (mode : SelectMode) (expr : Expression) : MaxExpression

/-- From `src/ast.rs`, struct `MinExpression`. -/
inductive MinExpression where
  | mk (mode : SelectMode) (expr : Expression) : MinExpression

/-- From `src/ast.rs`, struct `CastExpression`. -/
inductive CastExpression where
  | mk (expr : Expression) (data_type : DataType) : CastExpression

/-- From `src/ast.rs`, struct `RightExpression`. -/
inductive RightExpression where
  | mk (string : Expression) (length : Expression) : RightExpression

/-- From `src/ast.rs`, struct `CountExpression`. -/
inductive CountExpression where
  | mk (columns : ResultColumns) (mode : SelectMode) : CountExpression

/-- From `src/ast.rs`, struct `UnknownExpression`. -/
inductive UnknownExpression where
  | mk (name : List Name) (exprs : List Expression) : UnknownExpression

/-- From `src/ast.rs`, enum `SetSpecification`. -/
inductive SetSpecification where
  | Select (s : SelectStatement)
  | List (l : List Expression)
  | Name (n : List Name)

/-- From `src/ast.rs`, struct `WhenClause`. -/
inductive WhenClause where
  | mk (guard : Expression) (body : Expression) : WhenClause

end

/-- From `src/ast.rs`, struct `InsertStatement`. -/
structure InsertStatement where
  table_name : List Name
  columns : Option (List Name)
  source : SetExpression

/-- From `src/ast.rs`, struct `DeleteStatement`. -/
structure DeleteStatement where
  table_name : List Name
  where_expr : Option Expression

/-- From `src/ast.rs`, struct `Assignment`. -/
structure Assignment where
  columns : List Name
  expr : Expression

/-- From `src/ast.rs`, struct `UpdateStatement`. -/
structure UpdateStatement where
  table_name : List Name
  assignments : List Assignment
  where_expr : Option Expression

/-- From `src/ast.rs`, enum `Statement`. -/
inductive Statement where
  | Select (s : SelectStatement)
  | Insert (i : InsertStatement)
  | Delete (d : DeleteStatement)
  | Update (u : UpdateStatement)

/-- From `src/ast.rs`, enum `SqlStatement` (the root of the AST). -/
inductive SqlStatement where
  | Statement (s : Statement)
  | ExplainQueryPlan (s : Statement)
  | Attach (a : AttachStatement)
  | Describe (d : DescribeStatement)


/-- Modelled from the spec: the token alphabet of the external lexer
(spec §2), whose sources are not part of the published tree.  Keywords,
identifiers, numeric literals, string literals and operator/punctuation
symbols; source positions are not modelled. -/
inductive Token where
  | kw (s : String)
  | ident (s : String)
  | number (s : String)
  | litstr (s : String)
  | sym (s : String)
  deriving DecidableEq, Repr

/-- Modelled from the spec: the reserved words of the grammar described
in spec §4. -/
def keywords : List String :=
  ["select", "from", "where", "group", "by", "having", "order", "limit",
   "offset", "asc", "desc", "union", "all", "intersect", "except",
   "distinct", "values", "with", "as", "insert", "into", "update", "set",
   "delete", "attach", "describe", "explain", "query", "plan", "not",
   "and", "or", "is", "null", "in", "between", "like", "case", "when",
   "then", "else", "end", "join", "on", "using", "natural", "cross",
   "inner", "left", "right", "full", "current_time", "current_date",
   "current_timestamp"]

/-- A character that may occur inside an identifier. -/
def isIdentChar (c : Char) : Bool := c.isAlpha || c.isDigit || c = '_'

/-- The single-quote character delimiting string literals. -/
def quoteChar : Char := Char.ofNat 39

/-- Prepend a token to the result of tokenizing the remainder. -/
def consTok (t : Token) : Except String (List Token) → Except String (List Token)
  | Except.ok ts => Except.ok (t :: ts)
  | Except.error e => Except.error e

/-- Modelled from the spec: the external lexer (spec §2, §7), whose
sources are not part of the published tree: it "converts source text
into a sequence of tokens (keywords, identifiers, literals, operators,
punctuation)".  Keywords are matched case-insensitively; numeric
literals are kept as source text; a string literal runs to the next
single quote.  The fuel argument only bounds recursion; each step
consumes at least one character, so `length + 1` fuel never runs out. -/
def tokenize (fuel : Nat) (cs : List Char) : Except String (List Token) :=
  match fuel with
  | 0 => Except.error "lexical error: out of fuel"
  | fuel + 1 =>
    match cs with
    | [] => Except.ok []
    | c :: rest =>
      if c.isWhitespace then
        tokenize fuel rest
      else if c.isDigit then
        consTok (Token.number (String.mk ((c :: rest).takeWhile Char.isDigit)))
          (tokenize fuel ((c :: rest).dropWhile Char.isDigit))
      else if c.isAlpha || c = '_' then
        let word := String.mk ((c :: rest).takeWhile isIdentChar)
        let lower := String.mk (((c :: rest).takeWhile isIdentChar).map Char.toLower)
        let tok := if keywords.contains lower then Token.kw lower else Token.ident word
        consTok tok (tokenize fuel ((c :: rest).dropWhile isIdentChar))
      else if c = quoteChar then
        match rest.dropWhile (fun d => d ≠ quoteChar) with
        | _ :: rest2 =>
          consTok (Token.litstr (String.mk (rest.takeWhile (fun d => d ≠ quoteChar))))
            (tokenize fuel rest2)
        | [] => Except.error "lexical error: unterminated string literal"
      else
        match cs with
        | '|' :: '|' :: rest2 => consTok (Token.sym "||") (tokenize fuel rest2)
        | '<' :: '=' :: rest2 => consTok (Token.sym "<=") (tokenize fuel rest2)
        | '<' :: '>' :: rest2 => consTok (Token.sym "<>") (tokenize fuel rest2)
        | '>' :: '=' :: rest2 => consTok (Token.sym ">=") (tokenize fuel rest2)
        | '!' :: '=' :: rest2 => consTok (Token.sym "!=") (tokenize fuel rest2)
        | _ =>
          if c ∈ ['+', '-', '*', '/', '(', ')', ',', '.', '=', '<', '>'] then
            consTok (Token.sym (String.mk [c])) (tokenize fuel rest)
          else
            Except.error "lexical error: unexpected character"

/-- The token stream consumed by the parser. -/
abbrev Tokens := List Token

/-- Result of one parsing step: a value plus the residual tokens, or a
syntax error. -/
abbrev ParseResult (α : Type) := Except String (α × Tokens)

/-- Consume one expected symbol token. -/
def expectSym (s : String) (ts : Tokens) : Except String Tokens :=
  match ts with
  | Token.sym t :: rest =>
    if t = s then Except.ok rest
    else Except.error ("syntax error: expected " ++ s)
  | _ => Except.error ("syntax error: expected " ++ s)

/-- Consume one expected keyword token. -/
def expectKw (s : String) (ts : Tokens) : Except String Tokens :=
  match ts with
  | Token.kw t :: rest =>
    if t = s then Except.ok rest
    else Except.error ("syntax error: expected " ++ s)
  | _ => Except.error ("syntax error: expected " ++ s)

/-- Modelled from the spec: a possibly schema-qualified name, "an
identifier optionally prefixed by a schema name (`schema.table`)"
(glossary); the grammar only ever produces one or two components. -/
def parseQualifiedName (ts : Tokens) : ParseResult (List Name) :=
  match ts with
  | Token.ident a :: Token.sym "." :: Token.ident b :: rest =>
      Except.ok ([Name.new a, Name.new b], rest)
  | Token.ident a :: rest => Except.ok ([Name.new a], rest)
  | _ => Except.error "syntax error: expected identifier"

/-- Modelled from the spec: an optional alias after a table expression
(`AS alias` or a bare identifier), spec §4.2. -/
def parseOptAlias (ts : Tokens) : Option Name × Tokens :=
  match ts with
  | Token.kw "as" :: Token.ident a :: rest => (some (Name.new a), rest)
  | Token.ident a :: rest => (some (Name.new a), rest)
  | _ => (none, ts)

/-- Modelled from the spec: an optional `AS name` rename after a result
column expression, spec §4.3. -/
def parseOptRename (ts : Tokens) : Option Name × Tokens :=
  match ts with
  | Token.kw "as" :: Token.ident a :: rest => (some (Name.new a), rest)
  | _ => (none, ts)

/-- Modelled from the spec: the tail of a comma-separated identifier
list (CTE column names, spec §4.4). -/
def parseNameListRest (fuel : Nat) (acc : List Name) (ts : Tokens) :
    ParseResult (List Name) :=
  match fuel with
  | 0 => Except.error "syntax error: out of fuel"
  | fuel + 1 =>
    match ts with
    | Token.sym "," :: Token.ident a :: rest =>
        parseNameListRest fuel (acc ++ [Name.new a]) rest
    | _ => Except.ok (acc, ts)

/-- Modelled from the spec: an optional parenthesized identifier list
(the `[ (cols) ]` part of a CTE, spec §4.4). -/
def parseOptColumnNames (fuel : Nat) (ts : Tokens) :
    ParseResult (Option (List Name)) :=
  match ts with
  | Token.sym "(" :: Token.ident a :: rest =>
    match parseNameListRest fuel [Name.new a] rest with
    | Except.ok (names, rest1) =>
      match expectSym ")" rest1 with
      | Except.ok rest2 => Except.ok (some names, rest2)
      | Except.error e => Except.error e
    | Except.error e => Except.error e
  | _ => Except.ok (none, ts)

mutual

/-- Modelled from the spec: the expression grammar entry point
(spec §4.1); the parser sources are not part of the published tree.
The precedence ladder of §4.1 is modelled in full (`OR` < `AND` <
prefix `NOT` < comparisons/`LIKE`/`IN`/`BETWEEN`/`IS NULL` < `||` <
additive < multiplicative < prefix minus < primary); of the primary
forms, the named-function catalog (`COALESCE` … `CAST`), the generic
`Unknown` call form and `CASE` are not modelled — an identifier followed
by `(` is rejected. -/
def parseExpression (fuel : Nat) (ts : Tokens) : ParseResult Expression :=
  match fuel with
  | 0 => Except.error "syntax error: out of fuel"
  | fuel + 1 => parseOrExpr fuel ts

/-- Modelled from the spec: `OR`, the loosest binary level (§4.1). -/
def parseOrExpr (fuel : Nat) (ts : Tokens) : ParseResult Expression :=
  match fuel with
  | 0 => Except.error "syntax error: out of fuel"
  | fuel + 1 =>
    match parseAndExpr fuel ts with
    | Except.ok (l, ts1) => parseOrRest fuel l ts1
    | Except.error e => Except.error e

/-- Modelled from the spec: left-associative folding of `OR`. -/
def parseOrRest (fuel : Nat) (left : Expression) (ts : Tokens) :
    ParseResult Expression :=
  match fuel with
  | 0 => Except.error "syntax error: out of fuel"
  | fuel + 1 =>
    match ts with
    | Token.kw "or" :: rest =>
      match parseAndExpr fuel rest with
      | Except.ok (r, ts1) =>
          parseOrRest fuel
            (Expression.Binary (BinaryExpression.mk BinaryOperator.Or left r)) ts1
      | Except.error e => Except.error e
    | _ => Except.ok (left, ts)

/-- Modelled from the spec: `AND` (§4.1 level 2). -/
def parseAndExpr (fuel : Nat) (ts : Tokens) : ParseResult Expression :=
  match fuel with
  | 0 => Except.error "syntax error: out of fuel"
  | fuel + 1 =>
    match parseNotExpr fuel ts with
    | Except.ok (l, ts1) => parseAndRest fuel l ts1
    | Except.error e => Except.error e

/-- Modelled from the spec: left-associative folding of `AND`. -/
def parseAndRest (fuel : Nat) (left : Expression) (ts : Tokens) :
    ParseResult Expression :=
  match fuel with
  | 0 => Except.error "syntax error: out of fuel"
  | fuel + 1 =>
    match ts with
    | Token.kw "and" :: rest =>
      match parseNotExpr fuel rest with
      | Except.ok (r, ts1) =>
          parseAndRest fuel
            (Expression.Binary (BinaryExpression.mk BinaryOperator.And left r)) ts1
      | Except.error e => Except.error e
    | _ => Except.ok (left, ts)

/-- Modelled from the spec: prefix `NOT` (§4.1 level 3). -/
def parseNotExpr (fuel : Nat) (ts : Tokens) : ParseResult Expression :=
  match fuel with
  | 0 => Except.error "syntax error: out of fuel"
  | fuel + 1 =>
    match ts with
    | Token.kw "not" :: rest =>
      match parseNotExpr fuel rest with
      | Except.ok (e, ts1) =>
          Except.ok (Expression.Unary (UnaryExpression.mk UnaryOperator.Not e), ts1)
      | Except.error e => Except.error e
    | _ => parseComparisonExpr fuel ts

/-- Modelled from the spec: the non-chaining comparison family
(§4.1 level 4): `=`, `<>`/`!=`, `<`, `<=`, `>`, `>=`, `LIKE`, `IN`,
`BETWEEN … AND …` (bounds at the additive level), postfix `IS NULL`. -/
def parseComparisonExpr (fuel : Nat) (ts : Tokens) : ParseResult Expression :=
  match fuel with
  | 0 => Except.error "syntax error: out of fuel"
  | fuel + 1 =>
    match parseConcatExpr fuel ts with
    | Except.ok (l, ts1) =>
      match ts1 with
      | Token.sym "=" :: rest => parseComparisonRhs fuel ComparisonOperator.Equal l rest
      | Token.sym "<>" :: rest => parseComparisonRhs fuel ComparisonOperator.NotEqual l rest
      | Token.sym "!=" :: rest => parseComparisonRhs fuel ComparisonOperator.NotEqual l rest
      | Token.sym "<" :: rest => parseComparisonRhs fuel ComparisonOperator.LessThan l rest
      | Token.sym "<=" :: rest => parseComparisonRhs fuel ComparisonOperator.LessEqual l rest
      | Token.sym ">" :: rest => parseComparisonRhs fuel ComparisonOperator.GreaterThan l rest
      | Token.sym ">=" :: rest => parseComparisonRhs fuel ComparisonOperator.GreaterEqual l rest
      | Token.kw "like" :: rest => parseComparisonRhs fuel ComparisonOperator.Like l rest
      | Token.kw "between" :: rest =>
        match parseAdditiveExpr fuel rest with
        | Except.ok (lower, ts2) =>
          match ts2 with
          | Token.kw "and" :: rest2 =>
            match parseAdditiveExpr fuel rest2 with
            | Except.ok (upper, ts3) =>
                Except.ok
                  (Expression.Between (BetweenExpression.mk l lower upper), ts3)
            | Except.error e => Except.error e
          | _ => Except.error "syntax error: expected AND in BETWEEN"
        | Except.error e => Except.error e
      | Token.kw "in" :: rest =>
        match parseSetSpec fuel rest with
        | Except.ok (s, ts2) =>
            Except.ok (Expression.In (InExpression.mk l s), ts2)
        | Except.error e => Except.error e
      | Token.kw "is" :: Token.kw "null" :: rest =>
          Except.ok
            (Expression.Unary (UnaryExpression.mk UnaryOperator.IsNull l), rest)
      | _ => Except.ok (l, ts1)
    | Except.error e => Except.error e

/-- Modelled from the spec: the right operand of a comparison. -/
def parseComparisonRhs (fuel : Nat) (op : ComparisonOperator) (left : Expression)
    (ts : Tokens) : ParseResult Expression :=
  match fuel with
  | 0 => Except.error "syntax error: out of fuel"
  | fuel + 1 =>
    match parseConcatExpr fuel ts with
    | Except.ok (r, ts1) =>
        Except.ok (Expression.Comparison (ComparisonExpression.mk op left r), ts1)
    | Except.error e => Except.error e

/-- Modelled from the spec: the containing set of an `IN` test (§4.1):
a parenthesized `SELECT`, a parenthesized expression list, or a
qualified name — "disambiguated by looking past the opening parenthesis
for a `SELECT` keyword". -/
def parseSetSpec (fuel : Nat) (ts : Tokens) : ParseResult SetSpecification :=
  match fuel with
  | 0 => Except.error "syntax error: out of fuel"
  | fuel + 1 =>
    match ts with
    | Token.sym "(" :: Token.kw "select" :: rest =>
      match parseSelectStatement fuel [] (Token.kw "select" :: rest) with
      | Except.ok (stmt, ts1) =>
        match expectSym ")" ts1 with
        | Except.ok ts2 => Except.ok (SetSpecification.Select stmt, ts2)
        | Except.error e => Except.error e
      | Except.error e => Except.error e
    | Token.sym "(" :: rest =>
      match parseExprCommaList fuel rest with
      | Except.ok (es, ts1) =>
        match expectSym ")" ts1 with
        | Except.ok ts2 => Except.ok (SetSpecification.List es, ts2)
        | Except.error e => Except.error e
      | Except.error e => Except.error e
    | _ =>
      match parseQualifiedName ts with
      | Except.ok (qn, ts1) => Except.ok (SetSpecification.Name qn, ts1)
      | Except.error e => Except.error e

/-- Modelled from the spec: string concatenation `||` (§4.1 level 5). -/
def parseConcatExpr (fuel : Nat) (ts : Tokens) : ParseResult Expression :=
  match fuel with
  | 0 => Except.error "syntax error: out of fuel"
  | fuel + 1 =>
    match parseAdditiveExpr fuel ts with
    | Except.ok (l, ts1) => parseConcatRest fuel l ts1
    | Except.error e => Except.error e

/-- Modelled from the spec: left-associative folding of `||`. -/
def parseConcatRest (fuel : Nat) (left : Expression) (ts : Tokens) :
    ParseResult Expression :=
  match fuel with
  | 0 => Except.error "syntax error: out of fuel"
  | fuel + 1 =>
    match ts with
    | Token.sym "||" :: rest =>
      match parseAdditiveExpr fuel rest with
      | Except.ok (r, ts1) =>
          parseConcatRest fuel
            (Expression.Binary (BinaryExpression.mk BinaryOperator.Concat left r)) ts1
      | Except.error e => Except.error e
    | _ => Except.ok (left, ts)

/-- Modelled from the spec: additive `+`/`-` (§4.1 level 6). -/
def parseAdditiveExpr (fuel : Nat) (ts : Tokens) : ParseResult Expression :=
  match fuel with
  | 0 => Except.error "syntax error: out of fuel"
  | fuel + 1 =>
    match parseMultiplicativeExpr fuel ts with
    | Except.ok (l, ts1) => parseAdditiveRest fuel l ts1
    | Except.error e => Except.error e

/-- Modelled from the spec: left-associative folding of `+`/`-`. -/
def parseAdditiveRest (fuel : Nat) (left : Expression) (ts : Tokens) :
    ParseResult Expression :=
  match fuel with
  | 0 => Except.error "syntax error: out of fuel"
  | fuel + 1 =>
    match ts with
    | Token.sym "+" :: rest =>
      match parseMultiplicativeExpr fuel rest with
      | Except.ok (r, ts1) =>
          parseAdditiveRest fuel
            (Expression.Binary (BinaryExpression.mk BinaryOperator.Add left r)) ts1
      | Except.error e => Except.error e
    | Token.sym "-" :: rest =>
      match parseMultiplicativeExpr fuel rest with
      | Except.ok (r, ts1) =>
          parseAdditiveRest fuel
            (Expression.Binary (BinaryExpression.mk BinaryOperator.Subtract left r)) ts1
      | Except.error e => Except.error e
    | _ => Except.ok (left, ts)

/-- Modelled from the spec: multiplicative `*`/`/` (§4.1 level 7),
binding tighter than additive. -/
def parseMultiplicativeExpr (fuel : Nat) (ts : Tokens) : ParseResult Expression :=
  match fuel with
  | 0 => Except.error "syntax error: out of fuel"
  | fuel + 1 =>
    match parseUnaryExpr fuel ts with
    | Except.ok (l, ts1) => parseMultiplicativeRest fuel l ts1
    | Except.error e => Except.error e

/-- Modelled from the spec: left-associative folding of `*`/`/`. -/
def parseMultiplicativeRest (fuel : Nat) (left : Expression) (ts : Tokens) :
    ParseResult Expression :=
  match fuel with
  | 0 => Except.error "syntax error: out of fuel"
  | fuel + 1 =>
    match ts with
    | Token.sym "*" :: rest =>
      match parseUnaryExpr fuel rest with
      | Except.ok (r, ts1) =>
          parseMultiplicativeRest fuel
            (Expression.Binary (BinaryExpression.mk BinaryOperator.Multiply left r)) ts1
      | Except.error e => Except.error e
    | Token.sym "/" :: rest =>
      match parseUnaryExpr fuel rest with
      | Except.ok (r, ts1) =>
          parseMultiplicativeRest fuel
            (Expression.Binary (BinaryExpression.mk BinaryOperator.Divide left r)) ts1
      | Except.error e => Except.error e
    | _ => Except.ok (left, ts)

/-- Modelled from the spec: prefix numeric negation (§4.1 level 8). -/
def parseUnaryExpr (fuel : Nat) (ts : Tokens) : ParseResult Expression :=
  match fuel with
  | 0 => Except.error "syntax error: out of fuel"
  | fuel + 1 =>
    match ts with
    | Token.sym "-" :: rest =>
      match parseUnaryExpr fuel rest with
      | Except.ok (e, ts1) =>
          Except.ok (Expression.Unary (UnaryExpression.mk UnaryOperator.Negate e), ts1)
      | Except.error e => Except.error e
    | _ => parsePrimaryExpr fuel ts

/-- Modelled from the spec: primary expressions (§4.1 level 9):
literals, qualified identifiers, parenthesized expression or tuple,
nested `SELECT`.  The function-call forms are not modelled: an
identifier followed by `(` is rejected with a syntax error. -/
def parsePrimaryExpr (fuel : Nat) (ts : Tokens) : ParseResult Expression :=
  match fuel with
  | 0 => Except.error "syntax error: out of fuel"
  | fuel + 1 =>
    match ts with
    | Token.number n :: rest =>
        Except.ok (Expression.Literal (Literal.Numeric n), rest)
    | Token.litstr s :: rest =>
        Except.ok (Expression.Literal (Literal.String s), rest)
    | Token.kw "null" :: rest => Except.ok (Expression.Literal Literal.Null, rest)
    | Token.kw "current_time" :: rest =>
        Except.ok (Expression.Literal Literal.CurrentTime, rest)
    | Token.kw "current_date" :: rest =>
        Except.ok (Expression.Literal Literal.CurrentDate, rest)
    | Token.kw "current_timestamp" :: rest =>
        Except.ok (Expression.Literal Literal.CurrentTimestamp, rest)
    | Token.sym "(" :: Token.kw "select" :: rest =>
      match parseSelectStatement fuel [] (Token.kw "select" :: rest) with
      | Except.ok (stmt, ts1) =>
        match expectSym ")" ts1 with
        | Except.ok ts2 => Except.ok (Expression.Select stmt, ts2)
        | Except.error e => Except.error e
      | Except.error e => Except.error e
    | Token.sym "(" :: rest =>
      match parseExprCommaList fuel rest with
      | Except.ok ([e], ts1) =>
        match expectSym ")" ts1 with
        | Except.ok ts2 => Except.ok (e, ts2)
        | Except.error e => Except.error e
      | Except.ok (es, ts1) =>
        match expectSym ")" ts1 with
        | Except.ok ts2 =>
            Except.ok (Expression.MakeTuple (MakeTupleExpression.mk es), ts2)
        | Except.error e => Except.error e
      | Except.error e => Except.error e
    | Token.ident _ :: Token.sym "(" :: _ =>
        Except.error "syntax error: function calls are not modelled"
    | Token.ident a :: Token.sym "." :: Token.ident b :: rest =>
        Except.ok
          (Expression.QualifiedIdentifier
            (QualifiedIdentifierExpression.mk [Name.new a, Name.new b]), rest)
    | Token.ident a :: rest =>
        Except.ok
          (Expression.QualifiedIdentifier
            (QualifiedIdentifierExpression.mk [Name.new a]), rest)
    | _ => Except.error "syntax error: expected expression"

/-- Modelled from the spec: a one-or-more comma-separated expression
list. -/
def parseExprCommaList (fuel : Nat) (ts : Tokens) : ParseResult (List Expression) :=
  match fuel with
  | 0 => Except.error "syntax error: out of fuel"
  | fuel + 1 =>
    match parseExpression fuel ts with
    | Except.ok (e, ts1) => parseExprCommaListRest fuel [e] ts1
    | Except.error e => Except.error e

/-- Modelled from the spec: the tail of a comma-separated expression
list. -/
def parseExprCommaListRest (fuel : Nat) (acc : List Expression) (ts : Tokens) :
    ParseResult (List Expression) :=
  match fuel with
  | 0 => Except.error "syntax error: out of fuel"
  | fuel + 1 =>
    match ts with
    | Token.sym "," :: rest =>
      match parseExpression fuel rest with
      | Except.ok (e, ts1) => parseExprCommaListRest fuel (acc ++ [e]) ts1
      | Except.error e => Except.error e
    | _ => Except.ok (acc, ts)

/-- Modelled from the spec: result columns of a `SELECT` core (§4.3):
`*` or a comma-separated list of result columns. -/
def parseResultColumns (fuel : Nat) (ts : Tokens) : ParseResult ResultColumns :=
  match fuel with
  | 0 => Except.error "syntax error: out of fuel"
  | fuel + 1 =>
    match ts with
    | Token.sym "*" :: rest => Except.ok (ResultColumns.All, rest)
    | _ =>
      match parseResultColumn fuel ts with
      | Except.ok (c, ts1) =>
        match parseResultColumnListRest fuel [c] ts1 with
        | Except.ok (cs, ts2) => Except.ok (ResultColumns.List cs, ts2)
        | Except.error e => Except.error e
      | Except.error e => Except.error e

/-- Modelled from the spec: one result column (§4.3): `name.*` or an
expression with an optional rename. -/
def parseResultColumn (fuel : Nat) (ts : Tokens) : ParseResult ResultColumn :=
  match fuel with
  | 0 => Except.error "syntax error: out of fuel"
  | fuel + 1 =>
    match ts with
    | Token.ident a :: Token.sym "." :: Token.sym "*" :: rest =>
        Except.ok (ResultColumn.AllFrom (Name.new a), rest)
    | _ =>
      match parseExpression fuel ts with
      | Except.ok (e, ts1) =>
        let (rename, ts2) := parseOptRename ts1
        Except.ok (ResultColumn.Expr (ExprResultColumn.mk e rename), ts2)
      | Except.error e => Except.error e

/-- Modelled from the spec: the tail of the result column list. -/
def parseResultColumnListRest (fuel : Nat) (acc : List ResultColumn) (ts : Tokens) :
    ParseResult (List ResultColumn) :=
  match fuel with
  | 0 => Except.error "syntax error: out of fuel"
  | fuel + 1 =>
    match ts with
    | Token.sym "," :: rest =>
      match parseResultColumn fuel rest with
      | Except.ok (c, ts1) => parseResultColumnListRest fuel (acc ++ [c]) ts1
      | Except.error e => Except.error e
    | _ => Except.ok (acc, ts)

/-- Modelled from the spec: one base table expression of a `FROM` clause
(§4.2): a named table or a parenthesized sub-`SELECT`, each with an
optional alias.  Join clauses are not modelled. -/
def parseTableExpr (fuel : Nat) (ts : Tokens) : ParseResult TableExpression :=
  match fuel with
  | 0 => Except.error "syntax error: out of fuel"
  | fuel + 1 =>
    match ts with
    | Token.sym "(" :: Token.kw "select" :: rest =>
      match parseSelectStatement fuel [] (Token.kw "select" :: rest) with
      | Except.ok (stmt, ts1) =>
        match expectSym ")" ts1 with
        | Except.ok ts2 =>
          let (a, ts3) := parseOptAlias ts2
          Except.ok (TableExpression.Select (SelectTableExpression.mk stmt a), ts3)
        | Except.error e => Except.error e
      | Except.error e => Except.error e
    | _ =>
      match parseQualifiedName ts with
      | Except.ok (qn, ts1) =>
        let (a, ts2) := parseOptAlias ts1
        Except.ok (TableExpression.Named (NamedTableExpression.mk qn a), ts2)
      | Except.error e => Except.error e

/-- Modelled from the spec: the comma-separated table expression list of
a `FROM` clause. -/
def parseTableList (fuel : Nat) (ts : Tokens) : ParseResult (List TableExpression) :=
  match fuel with
  | 0 => Except.error "syntax error: out of fuel"
  | fuel + 1 =>
    match parseTableExpr fuel ts with
    | Except.ok (t, ts1) => parseTableListRest fuel [t] ts1
    | Except.error e => Except.error e

/-- Modelled from the spec: the tail of the `FROM` table list. -/
def parseTableListRest (fuel : Nat) (acc : List TableExpression) (ts : Tokens) :
    ParseResult (List TableExpression) :=
  match fuel with
  | 0 => Except.error "syntax error: out of fuel"
  | fuel + 1 =>
    match ts with
    | Token.sym "," :: rest =>
      match parseTableExpr fuel rest with
      | Except.ok (t, ts1) => parseTableListRest fuel (acc ++ [t]) ts1
      | Except.error e => Except.error e
    | _ => Except.ok (acc, ts)

/-- Modelled from the spec: one `SELECT` core (§4.3): mode, result
columns, optional `FROM` (absent is legal and yields an empty table
list), optional `WHERE`, optional `GROUP BY` with optional `HAVING`.
The leading `SELECT` keyword has already been consumed. -/
def parseQueryCore (fuel : Nat) (ts : Tokens) : ParseResult QuerySetExpression :=
  match fuel with
  | 0 => Except.error "syntax error: out of fuel"
  | fuel + 1 =>
    let (mode, ts0) :=
      match ts with
      | Token.kw "distinct" :: rest => (SelectMode.Distinct, rest)
      | Token.kw "all" :: rest => (SelectMode.All, rest)
      | _ => (SelectMode.All, ts)
    match parseResultColumns fuel ts0 with
    | Except.ok (cols, ts1) =>
      match
        (match ts1 with
         | Token.kw "from" :: rest => parseTableList fuel rest
         | _ => Except.ok ([], ts1)) with
      | Except.ok (tables, ts2) =>
        match
          (match ts2 with
           | Token.kw "where" :: rest =>
             (match parseExpression fuel rest with
              | Except.ok (w, ts3) => Except.ok (some w, ts3)
              | Except.error e => Except.error e)
           | _ => Except.ok (none, ts2)) with
        | Except.ok (whereExpr, ts3) =>
          match
            (match ts3 with
             | Token.kw "group" :: Token.kw "by" :: rest =>
               (match parseExprCommaList fuel rest with
                | Except.ok (gs, ts4) =>
                  (match ts4 with
                   | Token.kw "having" :: rest2 =>
                     (match parseExpression fuel rest2 with
                      | Except.ok (h, ts5) =>
                          Except.ok (some (GroupBy.mk gs (some h)), ts5)
                      | Except.error e => Except.error e)
                   | _ => Except.ok (some (GroupBy.mk gs none), ts4))
                | Except.error e => Except.error e)
             | _ => Except.ok (none, ts3)) with
          | Except.ok (groupBy, ts4) =>
              Except.ok (QuerySetExpression.mk mode cols tables whereExpr groupBy, ts4)
          | Except.error e => Except.error e
        | Except.error e => Except.error e
      | Except.error e => Except.error e
    | Except.error e => Except.error e

/-- Modelled from the spec: one row of a `VALUES` list (§4.3). -/
def parseValuesRow (fuel : Nat) (ts : Tokens) : ParseResult (List Expression) :=
  match fuel with
  | 0 => Except.error "syntax error: out of fuel"
  | fuel + 1 =>
    match ts with
    | Token.sym "(" :: rest =>
      match parseExprCommaList fuel rest with
      | Except.ok (es, ts1) =>
        match expectSym ")" ts1 with
        | Except.ok ts2 => Except.ok (es, ts2)
        | Except.error e => Except.error e
      | Except.error e => Except.error e
    | _ => Except.error "syntax error: expected ( in VALUES"

/-- Modelled from the spec: the tail of a `VALUES` row list. -/
def parseValuesRowsRest (fuel : Nat) (acc : List (List Expression)) (ts : Tokens) :
    ParseResult (List (List Expression)) :=
  match fuel with
  | 0 => Except.error "syntax error: out of fuel"
  | fuel + 1 =>
    match ts with
    | Token.sym "," :: rest =>
      match parseValuesRow fuel rest with
      | Except.ok (r, ts1) => parseValuesRowsRest fuel (acc ++ [r]) ts1
      | Except.error e => Except.error e
    | _ => Except.ok (acc, ts)

/-- Modelled from the spec: a primary set expression (§4.3): a `SELECT`
core, a `VALUES` literal row list, or a parenthesized set expression. -/
def parsePrimarySetExpr (fuel : Nat) (ts : Tokens) : ParseResult SetExpression :=
  match fuel with
  | 0 => Except.error "syntax error: out of fuel"
  | fuel + 1 =>
    match ts with
    | Token.kw "select" :: rest =>
      match parseQueryCore fuel rest with
      | Except.ok (q, ts1) => Except.ok (SetExpression.Query q, ts1)
      | Except.error e => Except.error e
    | Token.kw "values" :: rest =>
      match parseValuesRow fuel rest with
      | Except.ok (r, ts1) =>
        match parseValuesRowsRest fuel [r] ts1 with
        | Except.ok (rows, ts2) =>
            Except.ok (SetExpression.Values (ValuesSetExpression.mk rows), ts2)
        | Except.error e => Except.error e
      | Except.error e => Except.error e
    | Token.sym "(" :: rest =>
      match parseSetExpr fuel rest with
      | Except.ok (s, ts1) =>
        match expectSym ")" ts1 with
        | Except.ok ts2 => Except.ok (s, ts2)
        | Except.error e => Except.error e
      | Except.error e => Except.error e
    | _ => Except.error "syntax error: expected SELECT"

/-- Modelled from the spec: a set expression (§4.3): after a primary
set expression, repeatedly consume a set operator (`UNION [ALL]`,
`INTERSECT`, `EXCEPT`) and another primary, folding left-associatively
into `Op` nodes. -/
def parseSetExpr (fuel : Nat) (ts : Tokens) : ParseResult SetExpression :=
  match fuel with
  | 0 => Except.error "syntax error: out of fuel"
  | fuel + 1 =>
    match parsePrimarySetExpr fuel ts with
    | Except.ok (s, ts1) => parseSetExprRest fuel s ts1
    | Except.error e => Except.error e

/-- Modelled from the spec: left-associative folding of set operators. -/
def parseSetExprRest (fuel : Nat) (left : SetExpression) (ts : Tokens) :
    ParseResult SetExpression :=
  match fuel with
  | 0 => Except.error "syntax error: out of fuel"
  | fuel + 1 =>
    match ts with
    | Token.kw "union" :: Token.kw "all" :: rest =>
      match parsePrimarySetExpr fuel rest with
      | Except.ok (r, ts1) =>
          parseSetExprRest fuel
            (SetExpression.Op (OpSetExpression.mk SetOperator.UnionAll left r)) ts1
      | Except.error e => Except.error e
    | Token.kw "union" :: rest =>
      match parsePrimarySetExpr fuel rest with
      | Except.ok (r, ts1) =>
          parseSetExprRest fuel
            (SetExpression.Op (OpSetExpression.mk SetOperator.Union left r)) ts1
      | Except.error e => Except.error e
    | Token.kw "intersect" :: rest =>
      match parsePrimarySetExpr fuel rest with
      | Except.ok (r, ts1) =>
          parseSetExprRest fuel
            (SetExpression.Op (OpSetExpression.mk SetOperator.Intersect left r)) ts1
      | Except.error e => Except.error e
    | Token.kw "except" :: rest =>
      match parsePrimarySetExpr fuel rest with
      | Except.ok (r, ts1) =>
          parseSetExprRest fuel
            (SetExpression.Op (OpSetExpression.mk SetOperator.Except left r)) ts1
      | Except.error e => Except.error e
    | _ => Except.ok (left, ts)

/-- Modelled from the spec: the orderings of an `ORDER BY` clause
(§4.4); collations are not modelled, the direction defaults to
ascending. -/
def parseOrderingListRest (fuel : Nat) (acc : List Ordering) (ts : Tokens) :
    ParseResult (List Ordering) :=
  match fuel with
  | 0 => Except.error "syntax error: out of fuel"
  | fuel + 1 =>
    match ts with
    | Token.sym "," :: rest =>
      match parseOrdering fuel rest with
      | Except.ok (o, ts1) => parseOrderingListRest fuel (acc ++ [o]) ts1
      | Except.error e => Except.error e
    | _ => Except.ok (acc, ts)

/-- Modelled from the spec: one ordering term: an expression with an
optional `ASC`/`DESC` direction. -/
def parseOrdering (fuel : Nat) (ts : Tokens) : ParseResult Ordering :=
  match fuel with
  | 0 => Except.error "syntax error: out of fuel"
  | fuel + 1 =>
    match parseExpression fuel ts with
    | Except.ok (e, ts1) =>
      match ts1 with
      | Token.kw "asc" :: rest =>
          Except.ok (Ordering.mk e none OrderingDirection.Ascending, rest)
      | Token.kw "desc" :: rest =>
          Except.ok (Ordering.mk e none OrderingDirection.Descending, rest)
      | _ => Except.ok (Ordering.mk e none OrderingDirection.Ascending, ts1)
    | Except.error e => Except.error e

/-- Modelled from the spec: a full `SelectStatement` (§4.4): a set
expression followed by an optional `ORDER BY` and an optional `LIMIT
[OFFSET]`, which "attach only to the outermost `SelectStatement`";
`common` carries the common table expressions collected by `WITH`. -/
def parseSelectStatement (fuel : Nat) (common : List CommonTableExpression)
    (ts : Tokens) : ParseResult SelectStatement :=
  match fuel with
  | 0 => Except.error "syntax error: out of fuel"
  | fuel + 1 =>
    match parseSetExpr fuel ts with
    | Except.ok (e, ts1) =>
      match
        (match ts1 with
         | Token.kw "order" :: Token.kw "by" :: rest =>
           (match parseOrdering fuel rest with
            | Except.ok (o, ts2) => parseOrderingListRest fuel [o] ts2
            | Except.error er => Except.error er)
         | _ => Except.ok ([], ts1)) with
      | Except.ok (orderBy, ts2) =>
        match
          (match ts2 with
           | Token.kw "limit" :: rest =>
             (match parseExpression fuel rest with
              | Except.ok (n, ts3) =>
                (match ts3 with
                 | Token.kw "offset" :: rest2 =>
                   (match parseExpression fuel rest2 with
                    | Except.ok (o, ts4) =>
                        Except.ok (some (Limit.mk n (some o)), ts4)
                    | Except.error er => Except.error er)
                 | _ => Except.ok (some (Limit.mk n none), ts3))
              | Except.error er => Except.error er)
           | _ => Except.ok (none, ts2)) with
        | Except.ok (limit, ts3) =>
            Except.ok (SelectStatement.mk common e orderBy limit, ts3)
        | Except.error er => Except.error er
      | Except.error er => Except.error er
    | Except.error e => Except.error e

/-- Modelled from the spec: the common table expression list of a
`WITH` clause (§4.4): `name [ (cols) ] AS ( select )`, comma-separated;
each query is itself a full `SelectStatement`. -/
def parseCteListRest (fuel : Nat) (acc : List CommonTableExpression) (ts : Tokens) :
    ParseResult (List CommonTableExpression) :=
  match fuel with
  | 0 => Except.error "syntax error: out of fuel"
  | fuel + 1 =>
    match ts with
    | Token.ident nm :: rest =>
      match parseOptColumnNames fuel rest with
      | Except.ok (cols, rest1) =>
        match expectKw "as" rest1 with
        | Except.ok rest2 =>
          match expectSym "(" rest2 with
          | Except.ok rest3 =>
            match parseSelectStatement fuel [] rest3 with
            | Except.ok (query, rest4) =>
              match expectSym ")" rest4 with
              | Except.ok rest5 =>
                let cte := CommonTableExpression.mk (Name.new nm) cols query
                (match rest5 with
                 | Token.sym "," :: rest6 =>
                     parseCteListRest fuel (acc ++ [cte]) rest6
                 | _ => Except.ok (acc ++ [cte], rest5))
              | Except.error e => Except.error e
            | Except.error e => Except.error e
          | Except.error e => Except.error e
        | Except.error e => Except.error e
      | Except.error e => Except.error e
    | _ => Except.error "syntax error: expected common table expression name"

/-- Modelled from the spec: statement-level dispatch for DML statements
(§4.4); the parser sources are not part of the published tree.  `WITH`
(followed by a mandatory `SELECT` body) and `SELECT` are modelled;
`INSERT`, `UPDATE` and `DELETE` are not modelled and are rejected. -/
def parseDmlStatement (fuel : Nat) (ts : Tokens) : ParseResult Statement :=
  match fuel with
  | 0 => Except.error "syntax error: out of fuel"
  | fuel + 1 =>
    match ts with
    | Token.kw "with" :: rest =>
      match parseCteListRest fuel [] rest with
      | Except.ok (ctes, rest1) =>
        (match rest1 with
         | Token.kw "select" :: _ =>
           (match parseSelectStatement fuel ctes rest1 with
            | Except.ok (st, ts1) => Except.ok (Statement.Select st, ts1)
            | Except.error e => Except.error e)
         | _ => Except.error "syntax error: expected SELECT after WITH")
      | Except.error e => Except.error e
    | Token.kw "select" :: _ =>
      match parseSelectStatement fuel [] ts with
      | Except.ok (st, ts1) => Except.ok (Statement.Select st, ts1)
      | Except.error e => Except.error e
    | _ => Except.error "syntax error: expected one of SELECT, INSERT, UPDATE, DELETE"

end

/-- Modelled from the spec: `ATTACH [schema.]name AS path` (§4.4); the
path is a string literal; the qualified name (one or two components)
is handed to `AttachStatement::new`. -/
def parseAttachBody (ts : Tokens) : ParseResult AttachStatement :=
  match ts with
  | Token.ident a :: Token.sym "." :: Token.ident b :: Token.kw "as"
      :: Token.litstr p :: rest =>
      Except.ok (AttachStatement.new (some (Name.new a)) (Name.new b) p, rest)
  | Token.ident a :: Token.kw "as" :: Token.litstr p :: rest =>
      Except.ok (AttachStatement.new none (Name.new a) p, rest)
  | _ => Except.error "syntax error: expected [schema.]name AS path"

/-- Modelled from the spec: `DESCRIBE [schema.]name` (§4.4), handed to
`DescribeStatement::new`. -/
def parseDescribeBody (ts : Tokens) : ParseResult DescribeStatement :=
  match ts with
  | Token.ident a :: Token.sym "." :: Token.ident b :: rest =>
      Except.ok (DescribeStatement.new (some (Name.new a)) (Name.new b), rest)
  | Token.ident a :: rest =>
      Except.ok (DescribeStatement.new none (Name.new a), rest)
  | _ => Except.error "syntax error: expected [schema.]name"

/-- Modelled from the spec: top-level statement dispatch (§4.4):
`EXPLAIN QUERY PLAN`, `ATTACH`, `DESCRIBE`, or a plain DML statement. -/
def parseSqlStatement (fuel : Nat) (ts : Tokens) : ParseResult SqlStatement :=
  match ts with
  | Token.kw "explain" :: Token.kw "query" :: Token.kw "plan" :: rest =>
    match parseDmlStatement fuel rest with
    | Except.ok (st, ts1) => Except.ok (SqlStatement.ExplainQueryPlan st, ts1)
    | Except.error e => Except.error e
  | Token.kw "attach" :: rest =>
    match parseAttachBody rest with
    | Except.ok (a, ts1) => Except.ok (SqlStatement.Attach a, ts1)
    | Except.error e => Except.error e
  | Token.kw "describe" :: rest =>
    match parseDescribeBody rest with
    | Except.ok (d, ts1) => Except.ok (SqlStatement.Describe d, ts1)
    | Except.error e => Except.error e
  | _ =>
    match parseDmlStatement fuel ts with
    | Except.ok (st, ts1) => Except.ok (SqlStatement.Statement st, ts1)
    | Except.error e => Except.error e

/-- Modelled from the spec: the primary interface (§6),
`parse(source) -> Result<SqlStatement, SyntaxError>`, consuming one
complete statement; the parser sources are not part of the published
tree.  Errors are modelled as description strings (source positions are
not modelled).  The caller receives either a complete AST with no
residual tokens, or exactly one error; the fuel is a recursion bound
generous enough never to be hit on inputs the modelled grammar accepts. -/
def parse (source : String) : Except String SqlStatement :=
  match tokenize (source.length + 1) source.toList with
  | Except.error e => Except.error e
  | Except.ok ts =>
    match parseSqlStatement ((ts.length + 1) * 64) ts with
    | Except.error e => Except.error e
    | Except.ok (stmt, []) => Except.ok stmt
    | Except.ok (_, _ :: _) => Except.error "syntax error: unexpected trailing tokens"


/-- A numeric literal expression, as the tests write
`Expression::Literal(Literal::Numeric(...))`. -/
def numericLit (s : String) : Expression := Expression.Literal (Literal.Numeric s)

/-- A `SELECT` core with mode `All`, a single expression result column,
no `FROM`, no `WHERE`, no `GROUP BY` — the shape appearing throughout
the example tests. -/
def singleColumnCore (e : Expression) (rename : Option Name) : QuerySetExpression :=
  QuerySetExpression.mk SelectMode.All
    (ResultColumns.List [ResultColumn.Expr (ExprResultColumn.mk e rename)])
    [] none none

/-- The expected AST of test `select_minimum_cte`
(`tests/cte_tests.rs`), transcribed verbatim. -/
def selectMinimumCteExpected : SqlStatement :=
  SqlStatement.Statement (Statement.Select (SelectStatement.mk
    [CommonTableExpression.mk (Name.new "my_cte") none
      (SelectStatement.mk []
        (SetExpression.Query (singleColumnCore (numericLit "1") none)) [] none)]
    (SetExpression.Query (singleColumnCore (numericLit "1") none))
    [] none))

/-- The expected AST of test `select_from_cte`
(`tests/cte_tests.rs`), transcribed verbatim. -/
def selectFromCteExpected : SqlStatement :=
  SqlStatement.Statement (Statement.Select (SelectStatement.mk
    [CommonTableExpression.mk (Name.new "my_cte") none
      (SelectStatement.mk []
        (SetExpression.Query
          (singleColumnCore (numericLit "1") (some (Name.new "b")))) [] none)]
    (SetExpression.Query
      (QuerySetExpression.mk SelectMode.All
        (ResultColumns.List [ResultColumn.Expr (ExprResultColumn.mk
          (Expression.QualifiedIdentifier
            (QualifiedIdentifierExpression.mk [Name.new "c"])) none)])
        [TableExpression.Named (NamedTableExpression.mk [Name.new "my_cte"] none)]
        none none))
    [] none))

/-- The expected expression for `1+2*3`: multiplicative binds tighter
than additive. -/
def addMulExpected : Expression :=
  Expression.Binary (BinaryExpression.mk BinaryOperator.Add (numericLit "1")
    (Expression.Binary
      (BinaryExpression.mk BinaryOperator.Multiply (numericLit "2") (numericLit "3"))))

/-- The forbidden mis-associated expression for `1+2*3`. -/
def addMulForbidden : Expression :=
  Expression.Binary (BinaryExpression.mk BinaryOperator.Multiply
    (Expression.Binary
      (BinaryExpression.mk BinaryOperator.Add (numericLit "1") (numericLit "2")))
    (numericLit "3"))

/-- Wrap a bare expression as the single result column of a minimal
`SELECT` statement AST. -/
def singleExprSelect (e : Expression) : SqlStatement :=
  SqlStatement.Statement (Statement.Select (SelectStatement.mk []
    (SetExpression.Query (singleColumnCore e none)) [] none))

/-- Discriminator for the forbidden shape of C5: is the first result
column of the statement a `Multiply` whose left operand is an `Add`? -/
def firstColumnIsMulOfAdd : SqlStatement → Bool
  | SqlStatement.Statement (Statement.Select (SelectStatement.mk _
      (SetExpression.Query (QuerySetExpression.mk _
        (ResultColumns.List (ResultColumn.Expr (ExprResultColumn.mk
          (Expression.Binary (BinaryExpression.mk BinaryOperator.Multiply
            (Expression.Binary (BinaryExpression.mk BinaryOperator.Add _ _))
            _)) _) :: _)) _ _ _)) _ _)) => true
  | _ => false

/-- The `SELECT` core selecting the single numeric literal `n` — the
`Q` operands of the set-operator associativity test. -/
def unionOperand (n : String) : SetExpression :=
  SetExpression.Query (singleColumnCore (numericLit n) none)

/-- The expected AST of `select 1 union select 2 union select 3`:
`Op(Union, Op(Union, Q1, Q2), Q3)`. -/
def unionChainExpected : SqlStatement :=
  SqlStatement.Statement (Statement.Select (SelectStatement.mk []
    (SetExpression.Op (OpSetExpression.mk SetOperator.Union
      (SetExpression.Op (OpSetExpression.mk SetOperator.Union
        (unionOperand "1") (unionOperand "2")))
      (unionOperand "3")))
    [] none))


-- C1
theorem attach_describe_accessors (s n : Name) (p : String) :
    ((AttachStatement.new (some s) n p).qualified_name.length = 2
      ∧ (AttachStatement.new (some s) n p).schema_name = some (some s)
      ∧ (AttachStatement.new (some s) n p).table_name = some n)
    ∧ ((DescribeStatement.new (some s) n).qualified_name.length = 2
      ∧ (DescribeStatement.new (some s) n).schema_name = some (some s)
      ∧ (DescribeStatement.new (some s) n).table_name = some n)
    ∧ ((AttachStatement.new none n p).schema_name = some none
      ∧ (AttachStatement.new none n p).table_name = some n)
    ∧ ((DescribeStatement.new none n).schema_name = some none
      ∧ (DescribeStatement.new none n).table_name = some n) :=
  ⟨⟨rfl, rfl, rfl⟩, ⟨rfl, rfl, rfl⟩, ⟨rfl, rfl⟩, ⟨rfl, rfl⟩⟩

-- C3
theorem constructed_qualified_name_arity (schema : Option Name) (n : Name) (p : String) :
    ((AttachStatement.new schema n p).qualified_name.length = 1
      ∨ (AttachStatement.new schema n p).qualified_name.length = 2)
    ∧ ((DescribeStatement.new schema n).qualified_name.length = 1
      ∨ (DescribeStatement.new schema n).qualified_name.length = 2) := by
  cases schema with
  | none => exact ⟨Or.inl rfl, Or.inl rfl⟩
  | some s => exact ⟨Or.inr rfl, Or.inr rfl⟩

-- C2 counterexample: negation of "there exists an invocation with more
-- than two name components"
theorem constructors_no_overlong_invocation :
    ¬ ∃ (schema : Option Name) (n : Name) (p : String),
        2 < (AttachStatement.new schema n p).qualified_name.length
        ∨ 2 < (DescribeStatement.new schema n).qualified_name.length := by
  rintro ⟨schema, n, p, h | h⟩ <;> cases schema <;>
    simp [AttachStatement.new, DescribeStatement.new] at h

-- C2 amended
theorem constructors_arity_total (schema : Option Name) (n : Name) (p : String) :
    (1 ≤ (AttachStatement.new schema n p).qualified_name.length
      ∧ (AttachStatement.new schema n p).qualified_name.length ≤ 2)
    ∧ (1 ≤ (DescribeStatement.new schema n).qualified_name.length
      ∧ (DescribeStatement.new schema n).qualified_name.length ≤ 2) := by
  cases schema <;> simp [AttachStatement.new, DescribeStatement.new]

-- C9
theorem accessors_panic_conditions (q : List Name) (p : String) :
    ((AttachStatement.mk q p).table_name = none ↔ q = [])
    ∧ ((DescribeStatement.mk q).table_name = none ↔ q = [])
    ∧ ((AttachStatement.mk q p).schema_name = none
        ↔ (q.length = 0 ∨ 3 ≤ q.length))
    ∧ ((DescribeStatement.mk q).schema_name = none
        ↔ (q.length = 0 ∨ 3 ≤ q.length))
    ∧ (q.length = 1 ∨ q.length = 2 →
        (AttachStatement.mk q p).table_name ≠ none
        ∧ (AttachStatement.mk q p).schema_name ≠ none
        ∧ (DescribeStatement.mk q).table_name ≠ none
        ∧ (DescribeStatement.mk q).schema_name ≠ none) := by
  refine ⟨?_, ?_, ?_, ?_, ?_⟩
  · simp [AttachStatement.table_name, List.getLast?_eq_none_iff]
  · simp [DescribeStatement.table_name, List.getLast?_eq_none_iff]
  · simp only [AttachStatement.schema_name]
    split_ifs with h2 h1 <;> simp_all [-List.length_eq_zero] <;> omega
  · simp only [DescribeStatement.schema_name]
    split_ifs with h2 h1 <;> simp_all [-List.length_eq_zero] <;> omega
  · intro h
    refine ⟨?_, ?_, ?_, ?_⟩
    · simp [AttachStatement.table_name, List.getLast?_eq_none_iff]
      rintro rfl; simp at h
    · simp only [AttachStatement.schema_name]
      split_ifs with h2 h1 <;> simp_all [-List.length_eq_zero]
    · simp [DescribeStatement.table_name, List.getLast?_eq_none_iff]
      rintro rfl; simp at h
    · simp only [DescribeStatement.schema_name]
      split_ifs with h2 h1 <;> simp_all [-List.length_eq_zero]

theorem accessors_panic_conditions_witness :
    (AttachStatement.mk [Name.new "t"] "p").table_name ≠ none
    ∧ (DescribeStatement.mk [Name.new "s", Name.new "t"]).schema_name ≠ none :=
  ⟨((accessors_panic_conditions [Name.new "t"] "p").2.2.2.2 (Or.inl rfl)).1,
   ((accessors_panic_conditions [Name.new "s", Name.new "t"] "p").2.2.2.2
      (Or.inr rfl)).2.2.2⟩

-- C10
theorem append_spec {T : Type} (list : List T) (item : T) :
    (append list item).length = list.length + 1
    ∧ (∀ k, k < list.length → (append list item)[k]? = list[k]?)
    ∧ (append list item).getLast? = some item := by
  refine ⟨by simp [append], ?_, by simp [append]⟩
  intro k hk
  simp [append, List.getElem?_append, hk]

theorem append_spec_witness :
    (append [10, 20] 30).length = 3
    ∧ (append [10, 20] 30)[1]? = [10, 20][1]?
    ∧ (append [10, 20] 30).getLast? = some 30 :=
  ⟨(append_spec [10, 20] 30).1, (append_spec [10, 20] 30).2.1 1 (by decide),
   (append_spec [10, 20] 30).2.2⟩

-- C4
set_option maxHeartbeats 4000000 in
theorem cte_parsing_matches_tests :
    parse "with my_cte as ( select 1 ) select 1" = Except.ok selectMinimumCteExpected
    ∧ parse "with my_cte as ( select 1 as b ) select c from my_cte"
        = Except.ok selectFromCteExpected :=
  ⟨rfl, rfl⟩

-- C5
set_option maxHeartbeats 4000000 in
theorem precedence_add_multiply :
    parse "select 1+2*3" = Except.ok (singleExprSelect addMulExpected)
    ∧ parse "select 1+2*3" ≠ Except.ok (singleExprSelect addMulForbidden) := by
  have hgood : parse "select 1+2*3" = Except.ok (singleExprSelect addMulExpected) := rfl
  refine ⟨hgood, ?_⟩
  intro hbad
  rw [hgood] at hbad
  injection hbad with hst
  exact Bool.noConfusion (show false = true from congrArg firstColumnIsMulOfAdd hst)

-- C6
set_option maxHeartbeats 4000000 in
theorem set_operator_left_assoc :
    parse "select 1 union select 2 union select 3" = Except.ok unionChainExpected :=
  rfl

-- C7
set_option maxHeartbeats 4000000 in
theorem malformed_inputs_error :
    (∃ e, parse "select from" = Except.error e)
    ∧ (∃ e, parse "select 1 +" = Except.error e) :=
  ⟨⟨"syntax error: expected expression", rfl⟩,
   ⟨"syntax error: expected expression", rfl⟩⟩

-- C8
theorem parse_deterministic (source source' : String) (h : source = source') :
    parse source = parse source' := by rw [h]

theorem parse_deterministic_witness :
    parse "select 1" = parse "select 1" :=
  parse_deterministic "select 1" "select 1" rfl

end Efesto
